import Mathlib

/-
Verification of the HAP-MCP dispatch adapter (src/index.ts).

Shallow embedding. Every tool handler in the source follows one template:
read config, check the two credential strings, build a URL (path plus, for
some GET tools, URLSearchParams), issue one fetch with three fixed headers
and an optional JSON body, and normalize the response into a text envelope.
The embedding gives the JavaScript value model (JVal), the serializer
modelling ECMA-262 JSON.stringify, the generic post-credential-check
dispatch (runTool, and runToolWithURL for the eight tools whose try block
constructs a WHATWG URL object before fetching and can therefore throw
before any fetch), and one request-builder plus one run function per
registered tool, in source order.
-/

set_option linter.unusedVariables false

namespace Mingdao

/-- JavaScript values as they flow through the handlers. `undefined` is the
JavaScript value `undefined`, distinct from JSON `null`; numbers are
modelled as integers (all numbers the handlers touch are integral). -/
inductive JVal where
  | undefined : JVal
  | null : JVal
  | bool : Bool → JVal
  | int : Int → JVal
  | str : String → JVal
  | arr : List JVal → JVal
  | obj : List (String × JVal) → JVal

/-- True for the constructor `undefined` only. -/
def JVal.isUndefined : JVal → Bool
  | .undefined => true
  | _ => false

/-- JavaScript truthiness of a value, as used by `result.error_msg || ...`.
NaN is not modelled (no handler produces it). -/
def truthy : JVal → Bool
  | .undefined => false
  | .null => false
  | .bool b => b
  | .int n => n != 0
  | .str s => s != ""
  | .arr _ => true
  | .obj _ => true

/-- JavaScript property access `v[k]` on a non-null, non-undefined value:
the member when `v` is an object holding `k`, `undefined` otherwise.
Callers in this file match out `null` and `undefined` first, where the access
throws instead. -/
def getField (v : JVal) (k : String) : JVal :=
  match v with
  | .obj l =>
    match l.lookup k with
    | some w => w
    | none => .undefined
  | _ => .undefined

/-- Lower-case hexadecimal digit, for control-character escapes. -/
def hexDigit (n : Nat) : Char :=
  if n < 10 then Char.ofNat (48 + n) else Char.ofNat (87 + n)

/-- Modelled from ECMA-262 `QuoteJSONString`: escape the quote, the
backslash, the named control characters, and remaining control characters
as a lower-case unicode escape. -/
def escapeChar (c : Char) : String :=
  if c = '"' then "\\\""
  else if c = '\\' then "\\\\"
  else if c = '\x08' then "\\b"
  else if c = '\t' then "\\t"
  else if c = '\n' then "\\n"
  else if c = '\x0c' then "\\f"
  else if c = '\r' then "\\r"
  else if c.toNat < 32 then
    ("\\u00") ++ String.mk [hexDigit (c.toNat / 16), hexDigit (c.toNat % 16)]
  else String.mk [c]

/-- A JSON string literal for `s`, per ECMA-262 JSON.stringify. -/
def jsonQuote (s : String) : String :=
  ("\"") ++ String.join (s.toList.map escapeChar) ++ ("\"")

mutual

/-- Modelled from ECMA-262 `JSON.stringify` on the values the handlers
serialize: object members whose value is `undefined` are dropped, an
`undefined` array element serializes as `null` (no handler stringifies a
bare `undefined` at top level), booleans and integers print in decimal. -/
def stringify : JVal → String
  | .undefined => "null"
  | .null => "null"
  | .bool b => cond b ("true") ("false")
  | .int n => toString n
  | .str s => jsonQuote s
  | .arr xs => ("[") ++ stringifyList xs ++ ("]")
  | .obj l => ("\x7b") ++ stringifyMembers l ++ ("\x7d")

/-- Array elements, comma separated. -/
def stringifyList : List JVal → String
  | [] => ""
  | [v] => stringify v
  | v :: rest => stringify v ++ (",") ++ stringifyList rest

/-- Object members, comma separated, skipping `undefined`-valued members
exactly as JSON.stringify does. -/
def stringifyMembers : List (String × JVal) → String
  | [] => ""
  | (_, .undefined) :: rest => stringifyMembers rest
  | (k, v) :: rest =>
    let s := jsonQuote k ++ (":") ++ stringify v
    let r := stringifyMembers rest
    if r = "" then s else s ++ (",") ++ r

end

/-- The server configuration, from `configSchema` in the source: all four
fields are present once the zod config parse has succeeded, so a missing
credential manifests as the empty string (the only falsy string). -/
structure Config where
  debug : Bool
  hapAppkey : String
  hapSign : String
  apiBaseUrl : String
deriving DecidableEq

/-- One entry of a result envelope content array. -/
structure ContentItem where
  type : String
  text : String
deriving DecidableEq

/-- The tool result shape every handler returns:
content = [ (type "text", text t) ]. -/
structure Envelope where
  content : List ContentItem
deriving DecidableEq

/-- The envelope wrapping one text item, as every return site builds it. -/
def mkEnvelope (t : String) : Envelope :=
  ⟨[⟨("text"), t⟩]⟩

/-- The outbound request a handler passes to fetch. The target URL is kept
structurally: `urlBase` is the string the handler concatenates from
`config.apiBaseUrl` and the path, and `query` is the URLSearchParams list
in append order (empty for handlers that never construct a `URL`). -/
structure HttpRequest where
  urlBase : String
  query : List (String × String)
  method : String
  headers : List (String × String)
  body : Option String
deriving DecidableEq

/-- What the outside world does with one fetch: the fetch itself rejects
(network failure, invalid URL), the response arrives but reading or JSON
parsing its body throws, or a status plus parsed JSON body come back. The
carried message is the `error.message` the handler would observe. -/
inductive FetchResult where
  | fetchThrows : String → FetchResult
  | jsonThrows : Nat → String → FetchResult
  | ok : Nat → JVal → FetchResult

/-- The environment a tool invocation runs against. -/
abbrev HttpEnv := HttpRequest → FetchResult

/-- The three headers every handler attaches. -/
def stdHeaders (cfg : Config) : List (String × String) :=
  [(("Content-Type"), ("application/json")),
   (("HAP-Appkey"), cfg.hapAppkey),
   (("HAP-Sign"), cfg.hapSign)]

/-- `response.ok` of the Fetch API: status in the 2xx range. -/
def responseOk (st : Nat) : Bool :=
  200 ≤ st && st ≤ 299

/-- The catch-block text: a plain template string, not JSON. -/
def apiErrorText (m : String) : String :=
  ("Error calling external API: ") ++ m

/-- The non-2xx error payload every handler builds:
`JSON.stringify(.. error: result.error_msg || "Unknown error",
statusCode: response.status ..)`. -/
def errorBody (r : JVal) (st : Nat) : JVal :=
  JVal.obj
    [(("error"),
      cond (truthy (getField r ("error_msg")))
        (getField r ("error_msg"))
        (JVal.str ("Unknown error"))),
     (("statusCode"), JVal.int (Int.ofNat st))]

/-- Response normalization shared by every handler: a 2xx status wraps the
re-encoded body; otherwise `result.error_msg` is read, which on a `null`
or `undefined` body throws a TypeError that the catch block turns into the
transport-error text. -/
def handleResponse (st : Nat) (r : JVal) : Envelope :=
  if responseOk st then mkEnvelope (stringify r)
  else
    match r with
    | .null =>
      mkEnvelope (apiErrorText ("Cannot read properties of null (reading \x27error_msg\x27)"))
    | .undefined =>
      mkEnvelope (apiErrorText ("Cannot read properties of undefined (reading \x27error_msg\x27)"))
    | r => mkEnvelope (stringify (errorBody r st))

/-- Everything inside a handler try block after the request is built: one
fetch, then `response.json()`, then the ok test; any throw is caught at
the handler boundary and becomes the transport-error envelope. -/
def runFetch (env : HttpEnv) (req : HttpRequest) : Envelope :=
  match env req with
  | .fetchThrows m => mkEnvelope (apiErrorText m)
  | .jsonThrows _ m => mkEnvelope (apiErrorText m)
  | .ok st r => handleResponse st r

/-- The fixed missing-credentials message. -/
def credMissingText : String :=
  "Error: HAP-Appkey or HAP-Sign missing in server config."

/-- The handler body shared by the 24 tools that pass their concatenated
fullUrl string straight to fetch, given the request the tool would send:
`!hapAppkey || !hapSign` (falsy exactly on the empty string)
short-circuits before the try block; otherwise exactly one fetch runs.
The second component is the trace of issued fetches. -/
def runTool (cfg : Config) (env : HttpEnv) (req : HttpRequest) :
    Envelope × List HttpRequest :=
  if cfg.hapAppkey = "" ∨ cfg.hapSign = "" then
    (mkEnvelope credMissingText, [])
  else
    (runFetch env req, [req])

/-- The verdict of the WHATWG URL constructor on a string: none when
`new URL(s)` succeeds, or the message of the TypeError it throws. The
configured apiBaseUrl is only z.string(), so an unparseable base makes the
constructor throw. -/
abbrev UrlCtor := String → Option String

/-- The handler body shared by the eight tools whose try block constructs
`new URL(fullUrl)` before fetching (findDepartment, findMember,
getRecordDetails, getRecordDiscussions, getRecordLogs, getRecordRelations,
getRegions, getWorksheetStructure): after the credential check, a throwing
constructor is caught by the same handler boundary and no fetch is issued;
when the constructor succeeds, exactly one fetch runs as in runTool. -/
def runToolWithURL (cfg : Config) (uc : UrlCtor) (env : HttpEnv)
    (req : HttpRequest) : Envelope × List HttpRequest :=
  if cfg.hapAppkey = "" ∨ cfg.hapSign = "" then
    (mkEnvelope credMissingText, [])
  else
    match uc req.urlBase with
    | some m => (mkEnvelope (apiErrorText m), [])
    | none => (runFetch env req, [req])

/-- `if x !== undefined append(k, x)` for a string-valued argument. -/
def optQStr (k : String) : Option String → List (String × String)
  | none => []
  | some s => [(k, s)]

/-- `if x !== undefined append(k, String(x))` for a boolean argument:
`String(true)` is "true", `String(false)` is "false". -/
def optQBool (k : String) : Option Bool → List (String × String)
  | none => []
  | some b => [(k, cond b ("true") ("false"))]

/-- `if x !== undefined append(k, String(x))` for an integer argument:
`String(n)` prints in decimal. -/
def optQInt (k : String) : Option Int → List (String × String)
  | none => []
  | some n => [(k, toString n)]

/-- `if xs !== undefined xs.forEach(x => append(k, x))`. -/
def listQ (k : String) : Option (List String) → List (String × String)
  | none => []
  | some xs => xs.map (fun x => (k, x))

/-- An optional body argument: present values pass through, absence is the
JavaScript `undefined` that JSON.stringify will drop. -/
def jOpt : Option JVal → JVal
  | none => .undefined
  | some v => v

/-- Request built by the postCreateOptionset handler. -/
def postCreateOptionsetRequest (cfg : Config) (name : String) (options : JVal)
    (enableColor enableScore : Bool) (ai_description : String) : HttpRequest :=
  { urlBase := cfg.apiBaseUrl ++ ("/v3/app/optionsets")
    query := []
    method := "POST"
    headers := stdHeaders cfg
    body := some (stringify (JVal.obj
      [(("name"), JVal.str name), (("options"), options),
       (("enableColor"), JVal.bool enableColor),
       (("enableScore"), JVal.bool enableScore)])) }

/-- The postCreateOptionset handler. -/
def postCreateOptionsetRun (cfg : Config) (env : HttpEnv) (name : String)
    (options : JVal) (enableColor enableScore : Bool) (ai_description : String) :
    Envelope × List HttpRequest :=
  runTool cfg env
    (postCreateOptionsetRequest cfg name options enableColor enableScore ai_description)

/-- Request built by the createRecord handler. `fields` and
`triggerWorkflow` arrive from the schema layer; `triggerWorkflow` may be
the JavaScript `undefined`. -/
def createRecordRequest (cfg : Config) (worksheet_id : String)
    (fields triggerWorkflow : JVal) (ai_description : String) : HttpRequest :=
  { urlBase := cfg.apiBaseUrl ++ ("/v3/app/worksheets/") ++ worksheet_id ++ ("/rows")
    query := []
    method := "POST"
    headers := stdHeaders cfg
    body := some (stringify (JVal.obj
      [(("fields"), fields), (("triggerWorkflow"), triggerWorkflow)])) }

/-- The createRecord handler. -/
def createRecordRun (cfg : Config) (env : HttpEnv) (worksheet_id : String)
    (fields triggerWorkflow : JVal) (ai_description : String) :
    Envelope × List HttpRequest :=
  runTool cfg env (createRecordRequest cfg worksheet_id fields triggerWorkflow ai_description)

/-- Request built by the createRole handler. -/
def createRoleRequest (cfg : Config)
    (name description hideAppForMembers type permissionScope : String)
    (globalPermissions worksheetPermissions pagePermissions : JVal)
    (ai_description : String) : HttpRequest :=
  { urlBase := cfg.apiBaseUrl ++ ("/v3/app/roles")
    query := []
    method := "POST"
    headers := stdHeaders cfg
    body := some (stringify (JVal.obj
      [(("name"), JVal.str name), (("description"), JVal.str description),
       (("hideAppForMembers"), JVal.str hideAppForMembers),
       (("type"), JVal.str type), (("permissionScope"), JVal.str permissionScope),
       (("globalPermissions"), globalPermissions),
       (("worksheetPermissions"), worksheetPermissions),
       (("pagePermissions"), pagePermissions)])) }

/-- The createRole handler. -/
def createRoleRun (cfg : Config) (env : HttpEnv)
    (name description hideAppForMembers type permissionScope : String)
    (globalPermissions worksheetPermissions pagePermissions : JVal)
    (ai_description : String) : Envelope × List HttpRequest :=
  runTool cfg env (createRoleRequest cfg name description hideAppForMembers type
    permissionScope globalPermissions worksheetPermissions pagePermissions ai_description)

/-- Request built by the createWorksheet handler. -/
def createWorksheetRequest (cfg : Config) (name : String)
    (alias_ sectionId fields : JVal) (ai_description : String) : HttpRequest :=
  { urlBase := cfg.apiBaseUrl ++ ("/v3/app/worksheets")
    query := []
    method := "POST"
    headers := stdHeaders cfg
    body := some (stringify (JVal.obj
      [(("name"), JVal.str name), (("alias"), alias_),
       (("sectionId"), sectionId), (("fields"), fields)])) }

/-- The createWorksheet handler. -/
def createWorksheetRun (cfg : Config) (env : HttpEnv) (name : String)
    (alias_ sectionId fields : JVal) (ai_description : String) :
    Envelope × List HttpRequest :=
  runTool cfg env (createWorksheetRequest cfg name alias_ sectionId fields ai_description)

/-- Request built by the deleteOptionset handler. -/
def deleteOptionsetRequest (cfg : Config) (optionset_id ai_description : String) :
    HttpRequest :=
  { urlBase := cfg.apiBaseUrl ++ ("/v3/app/optionsets/") ++ optionset_id
    query := []
    method := "DELETE"
    headers := stdHeaders cfg
    body := none }

/-- The deleteOptionset handler. -/
def deleteOptionsetRun (cfg : Config) (env : HttpEnv)
    (optionset_id ai_description : String) : Envelope × List HttpRequest :=
  runTool cfg env (deleteOptionsetRequest cfg optionset_id ai_description)

/-- Request built by the deleteRecord handler; `triggerWorkflow` and
`permanent` may be the JavaScript `undefined`. -/
def deleteRecordRequest (cfg : Config) (worksheet_id row_id : String)
    (triggerWorkflow permanent : JVal) (ai_description : String) : HttpRequest :=
  { urlBase := cfg.apiBaseUrl ++ ("/v3/app/worksheets/") ++ worksheet_id
      ++ ("/rows/") ++ row_id
    query := []
    method := "DELETE"
    headers := stdHeaders cfg
    body := some (stringify (JVal.obj
      [(("triggerWorkflow"), triggerWorkflow), (("permanent"), permanent)])) }

/-- The deleteRecord handler. -/
def deleteRecordRun (cfg : Config) (env : HttpEnv) (worksheet_id row_id : String)
    (triggerWorkflow permanent : JVal) (ai_description : String) :
    Envelope × List HttpRequest :=
  runTool cfg env
    (deleteRecordRequest cfg worksheet_id row_id triggerWorkflow permanent ai_description)

/-- Request built by the deleteRole handler. -/
def deleteRoleRequest (cfg : Config) (role_id ai_description : String) : HttpRequest :=
  { urlBase := cfg.apiBaseUrl ++ ("/v3/app/roles/") ++ role_id
    query := []
    method := "DELETE"
    headers := stdHeaders cfg
    body := none }

/-- The deleteRole handler. -/
def deleteRoleRun (cfg : Config) (env : HttpEnv) (role_id ai_description : String) :
    Envelope × List HttpRequest :=
  runTool cfg env (deleteRoleRequest cfg role_id ai_description)

/-- Request built by the deleteWorksheet handler. -/
def deleteWorksheetRequest (cfg : Config) (worksheet_id ai_description : String) :
    HttpRequest :=
  { urlBase := cfg.apiBaseUrl ++ ("/v3/app/worksheets/") ++ worksheet_id
    query := []
    method := "DELETE"
    headers := stdHeaders cfg
    body := none }

/-- The deleteWorksheet handler. -/
def deleteWorksheetRun (cfg : Config) (env : HttpEnv)
    (worksheet_id ai_description : String) : Envelope × List HttpRequest :=
  runTool cfg env (deleteWorksheetRequest cfg worksheet_id ai_description)

/-- Request built by the findDepartment handler (name appended
unconditionally to the search params). -/
def findDepartmentRequest (cfg : Config) (name ai_description : String) : HttpRequest :=
  { urlBase := cfg.apiBaseUrl ++ ("/v3/departments/lookup")
    query := [(("name"), name)]
    method := "GET"
    headers := stdHeaders cfg
    body := none }

/-- The findDepartment handler. -/
def findDepartmentRun (cfg : Config) (uc : UrlCtor) (env : HttpEnv) (name ai_description : String) :
    Envelope × List HttpRequest :=
  runToolWithURL cfg uc env (findDepartmentRequest cfg name ai_description)

/-- Request built by the findMember handler. -/
def findMemberRequest (cfg : Config) (name ai_description : String) : HttpRequest :=
  { urlBase := cfg.apiBaseUrl ++ ("/v3/users/lookup")
    query := [(("name"), name)]
    method := "GET"
    headers := stdHeaders cfg
    body := none }

/-- The findMember handler. -/
def findMemberRun (cfg : Config) (uc : UrlCtor) (env : HttpEnv) (name ai_description : String) :
    Envelope × List HttpRequest :=
  runToolWithURL cfg uc env (findMemberRequest cfg name ai_description)

/-- Request built by the getAppInfo handler. -/
def getAppInfoRequest (cfg : Config) (ai_description : String) : HttpRequest :=
  { urlBase := cfg.apiBaseUrl ++ ("/v3/app")
    query := []
    method := "GET"
    headers := stdHeaders cfg
    body := none }

/-- The getAppInfo handler. -/
def getAppInfoRun (cfg : Config) (env : HttpEnv) (ai_description : String) :
    Envelope × List HttpRequest :=
  runTool cfg env (getAppInfoRequest cfg ai_description)

/-- Request built by the getOptionsetList handler. -/
def getOptionsetListRequest (cfg : Config) (ai_description : String) : HttpRequest :=
  { urlBase := cfg.apiBaseUrl ++ ("/v3/app/optionsets")
    query := []
    method := "GET"
    headers := stdHeaders cfg
    body := none }

/-- The getOptionsetList handler. -/
def getOptionsetListRun (cfg : Config) (env : HttpEnv) (ai_description : String) :
    Envelope × List HttpRequest :=
  runTool cfg env (getOptionsetListRequest cfg ai_description)

/-- Request built by the getRecordDetails handler. -/
def getRecordDetailsRequest (cfg : Config) (worksheet_id row_id : String)
    (includeSystemFields : Option Bool) (ai_description : String) : HttpRequest :=
  { urlBase := cfg.apiBaseUrl ++ ("/v3/app/worksheets/") ++ worksheet_id
      ++ ("/rows/") ++ row_id
    query := optQBool ("includeSystemFields") includeSystemFields
    method := "GET"
    headers := stdHeaders cfg
    body := none }

/-- The getRecordDetails handler. -/
def getRecordDetailsRun (cfg : Config) (uc : UrlCtor) (env : HttpEnv) (worksheet_id row_id : String)
    (includeSystemFields : Option Bool) (ai_description : String) :
    Envelope × List HttpRequest :=
  runToolWithURL cfg uc env
    (getRecordDetailsRequest cfg worksheet_id row_id includeSystemFields ai_description)

/-- Request built by the getRecordDiscussions handler; the four optional
arguments append in source order when not undefined. -/
def getRecordDiscussionsRequest (cfg : Config) (worksheet_id row_id : String)
    (pageIndex pageSize : Option Int) (search : Option String)
    (onlyWithAttachments : Option Bool) (ai_description : String) : HttpRequest :=
  { urlBase := cfg.apiBaseUrl ++ ("/v3/app/worksheets/") ++ worksheet_id
      ++ ("/rows/") ++ row_id ++ ("/discussions")
    query := optQInt ("pageIndex") pageIndex ++ optQInt ("pageSize") pageSize
      ++ optQStr ("search") search ++ optQBool ("onlyWithAttachments") onlyWithAttachments
    method := "GET"
    headers := stdHeaders cfg
    body := none }

/-- The getRecordDiscussions handler. -/
def getRecordDiscussionsRun (cfg : Config) (uc : UrlCtor) (env : HttpEnv)
    (worksheet_id row_id : String) (pageIndex pageSize : Option Int)
    (search : Option String) (onlyWithAttachments : Option Bool)
    (ai_description : String) : Envelope × List HttpRequest :=
  runToolWithURL cfg uc env (getRecordDiscussionsRequest cfg worksheet_id row_id pageIndex
    pageSize search onlyWithAttachments ai_description)

/-- Request built by the getRecordList handler. -/
def getRecordListRequest (cfg : Config) (worksheet_id : String)
    (pageSize pageIndex : Int)
    (viewId fields filter sorts search tableView useFieldIdAsKey includeTotalCount
      includeSystemFields responseFormat : JVal) (ai_description : String) : HttpRequest :=
  { urlBase := cfg.apiBaseUrl ++ ("/v3/app/worksheets/") ++ worksheet_id ++ ("/rows/list")
    query := []
    method := "POST"
    headers := stdHeaders cfg
    body := some (stringify (JVal.obj
      [(("pageSize"), JVal.int pageSize), (("pageIndex"), JVal.int pageIndex),
       (("viewId"), viewId), (("fields"), fields), (("filter"), filter),
       (("sorts"), sorts), (("search"), search), (("tableView"), tableView),
       (("useFieldIdAsKey"), useFieldIdAsKey),
       (("includeTotalCount"), includeTotalCount),
       (("includeSystemFields"), includeSystemFields),
       (("responseFormat"), responseFormat)])) }

/-- The getRecordList handler. -/
def getRecordListRun (cfg : Config) (env : HttpEnv) (worksheet_id : String)
    (pageSize pageIndex : Int)
    (viewId fields filter sorts search tableView useFieldIdAsKey includeTotalCount
      includeSystemFields responseFormat : JVal) (ai_description : String) :
    Envelope × List HttpRequest :=
  runTool cfg env (getRecordListRequest cfg worksheet_id pageSize pageIndex viewId
    fields filter sorts search tableView useFieldIdAsKey includeTotalCount
    includeSystemFields responseFormat ai_description)

/-- Request built by the getRecordLogs handler; operatorIds appends one
pair per element, the other optionals append when not undefined. -/
def getRecordLogsRequest (cfg : Config) (worksheet_id row_id : String)
    (operatorIds : Option (List String)) (field : Option String)
    (pageSize pageIndex : Option Int) (startDate endDate : Option String)
    (ai_description : String) : HttpRequest :=
  { urlBase := cfg.apiBaseUrl ++ ("/v3/app/worksheets/") ++ worksheet_id
      ++ ("/rows/") ++ row_id ++ ("/logs")
    query := listQ ("operatorIds") operatorIds ++ optQStr ("field") field
      ++ optQInt ("pageSize") pageSize ++ optQInt ("pageIndex") pageIndex
      ++ optQStr ("startDate") startDate ++ optQStr ("endDate") endDate
    method := "GET"
    headers := stdHeaders cfg
    body := none }

/-- The getRecordLogs handler. -/
def getRecordLogsRun (cfg : Config) (uc : UrlCtor) (env : HttpEnv) (worksheet_id row_id : String)
    (operatorIds : Option (List String)) (field : Option String)
    (pageSize pageIndex : Option Int) (startDate endDate : Option String)
    (ai_description : String) : Envelope × List HttpRequest :=
  runToolWithURL cfg uc env (getRecordLogsRequest cfg worksheet_id row_id operatorIds field
    pageSize pageIndex startDate endDate ai_description)

/-- Request built by the getRecordPivotData handler. -/
def getRecordPivotDataRequest (cfg : Config) (worksheet_id : String)
    (pageSize pageIndex viewId columns rows values filter sorts includeSummary : JVal)
    (ai_description : String) : HttpRequest :=
  { urlBase := cfg.apiBaseUrl ++ ("/v3/app/worksheets/") ++ worksheet_id
      ++ ("/rows/pivot")
    query := []
    method := "POST"
    headers := stdHeaders cfg
    body := some (stringify (JVal.obj
      [(("pageSize"), pageSize), (("pageIndex"), pageIndex), (("viewId"), viewId),
       (("columns"), columns), (("rows"), rows), (("values"), values),
       (("filter"), filter), (("sorts"), sorts), (("includeSummary"), includeSummary)])) }

/-- The getRecordPivotData handler. -/
def getRecordPivotDataRun (cfg : Config) (env : HttpEnv) (worksheet_id : String)
    (pageSize pageIndex viewId columns rows values filter sorts includeSummary : JVal)
    (ai_description : String) : Envelope × List HttpRequest :=
  runTool cfg env (getRecordPivotDataRequest cfg worksheet_id pageSize pageIndex viewId
    columns rows values filter sorts includeSummary ai_description)

/-- Request built by the getRecordRelations handler. -/
def getRecordRelationsRequest (cfg : Config) (worksheet_id row_id field : String)
    (pageSize pageIndex : Option Int) (isReturnSystemFields : Option Bool)
    (ai_description : String) : HttpRequest :=
  { urlBase := cfg.apiBaseUrl ++ ("/v3/app/worksheets/") ++ worksheet_id
      ++ ("/rows/") ++ row_id ++ ("/relations/") ++ field
    query := optQInt ("pageSize") pageSize ++ optQInt ("pageIndex") pageIndex
      ++ optQBool ("isReturnSystemFields") isReturnSystemFields
    method := "GET"
    headers := stdHeaders cfg
    body := none }

/-- The getRecordRelations handler. -/
def getRecordRelationsRun (cfg : Config) (uc : UrlCtor) (env : HttpEnv)
    (worksheet_id row_id field : String) (pageSize pageIndex : Option Int)
    (isReturnSystemFields : Option Bool) (ai_description : String) :
    Envelope × List HttpRequest :=
  runToolWithURL cfg uc env (getRecordRelationsRequest cfg worksheet_id row_id field pageSize
    pageIndex isReturnSystemFields ai_description)

/-- Request built by the getRecordShareLink handler; all three body
arguments may be the JavaScript `undefined`. -/
def getRecordShareLinkRequest (cfg : Config) (worksheet_id row_id : String)
    (visibleFields expiredIn password : JVal) (ai_description : String) : HttpRequest :=
  { urlBase := cfg.apiBaseUrl ++ ("/v3/app/worksheets/") ++ worksheet_id
      ++ ("/rows/") ++ row_id ++ ("/share-link")
    query := []
    method := "POST"
    headers := stdHeaders cfg
    body := some (stringify (JVal.obj
      [(("visibleFields"), visibleFields), (("expiredIn"), expiredIn),
       (("password"), password)])) }

/-- The getRecordShareLink handler. -/
def getRecordShareLinkRun (cfg : Config) (env : HttpEnv)
    (worksheet_id row_id : String) (visibleFields expiredIn password : JVal)
    (ai_description : String) : Envelope × List HttpRequest :=
  runTool cfg env (getRecordShareLinkRequest cfg worksheet_id row_id visibleFields
    expiredIn password ai_description)

/-- Request built by the getRegions handler. -/
def getRegionsRequest (cfg : Config) (id search : Option String)
    (ai_description : String) : HttpRequest :=
  { urlBase := cfg.apiBaseUrl ++ ("/v3/regions")
    query := optQStr ("id") id ++ optQStr ("search") search
    method := "GET"
    headers := stdHeaders cfg
    body := none }

/-- The getRegions handler. -/
def getRegionsRun (cfg : Config) (uc : UrlCtor) (env : HttpEnv) (id search : Option String)
    (ai_description : String) : Envelope × List HttpRequest :=
  runToolWithURL cfg uc env (getRegionsRequest cfg id search ai_description)

/-- Request built by the getRoleDetails handler. -/
def getRoleDetailsRequest (cfg : Config) (role_id ai_description : String) :
    HttpRequest :=
  { urlBase := cfg.apiBaseUrl ++ ("/v3/app/roles/") ++ role_id
    query := []
    method := "GET"
    headers := stdHeaders cfg
    body := none }

/-- The getRoleDetails handler. -/
def getRoleDetailsRun (cfg : Config) (env : HttpEnv) (role_id ai_description : String) :
    Envelope × List HttpRequest :=
  runTool cfg env (getRoleDetailsRequest cfg role_id ai_description)

/-- Request built by the getRoleList handler. -/
def getRoleListRequest (cfg : Config) (ai_description : String) : HttpRequest :=
  { urlBase := cfg.apiBaseUrl ++ ("/v3/app/roles")
    query := []
    method := "GET"
    headers := stdHeaders cfg
    body := none }

/-- The getRoleList handler. -/
def getRoleListRun (cfg : Config) (env : HttpEnv) (ai_description : String) :
    Envelope × List HttpRequest :=
  runTool cfg env (getRoleListRequest cfg ai_description)

/-- Request built by the getWorkflowDetails handler. -/
def getWorkflowDetailsRequest (cfg : Config) (process_id ai_description : String) :
    HttpRequest :=
  { urlBase := cfg.apiBaseUrl ++ ("/v3/app/workflow/processes/") ++ process_id
    query := []
    method := "GET"
    headers := stdHeaders cfg
    body := none }

/-- The getWorkflowDetails handler. -/
def getWorkflowDetailsRun (cfg : Config) (env : HttpEnv)
    (process_id ai_description : String) : Envelope × List HttpRequest :=
  runTool cfg env (getWorkflowDetailsRequest cfg process_id ai_description)

/-- Request built by the getWorkflowList handler. -/
def getWorkflowListRequest (cfg : Config) (ai_description : String) : HttpRequest :=
  { urlBase := cfg.apiBaseUrl ++ ("/v3/app/workflow/processes")
    query := []
    method := "GET"
    headers := stdHeaders cfg
    body := none }

/-- The getWorkflowList handler. -/
def getWorkflowListRun (cfg : Config) (env : HttpEnv) (ai_description : String) :
    Envelope × List HttpRequest :=
  runTool cfg env (getWorkflowListRequest cfg ai_description)

/-- Request built by the getWorksheetsList handler. -/
def getWorksheetsListRequest (cfg : Config) (responseFormat worksheets : JVal)
    (ai_description : String) : HttpRequest :=
  { urlBase := cfg.apiBaseUrl ++ ("/v3/app/worksheets/list")
    query := []
    method := "POST"
    headers := stdHeaders cfg
    body := some (stringify (JVal.obj
      [(("responseFormat"), responseFormat), (("worksheets"), worksheets)])) }

/-- The getWorksheetsList handler. -/
def getWorksheetsListRun (cfg : Config) (env : HttpEnv)
    (responseFormat worksheets : JVal) (ai_description : String) :
    Envelope × List HttpRequest :=
  runTool cfg env (getWorksheetsListRequest cfg responseFormat worksheets ai_description)

/-- Request built by the getWorksheetStructure handler. -/
def getWorksheetStructureRequest (cfg : Config) (worksheet_id : String)
    (responseFormat : Option String) (ai_description : String) : HttpRequest :=
  { urlBase := cfg.apiBaseUrl ++ ("/v3/app/worksheets/") ++ worksheet_id
    query := optQStr ("responseFormat") responseFormat
    method := "GET"
    headers := stdHeaders cfg
    body := none }

/-- The getWorksheetStructure handler. -/
def getWorksheetStructureRun (cfg : Config) (uc : UrlCtor) (env : HttpEnv) (worksheet_id : String)
    (responseFormat : Option String) (ai_description : String) :
    Envelope × List HttpRequest :=
  runToolWithURL cfg uc env
    (getWorksheetStructureRequest cfg worksheet_id responseFormat ai_description)

/-- Request built by the leaveAllRoles handler. -/
def leaveAllRolesRequest (cfg : Config) (user_id ai_description : String) :
    HttpRequest :=
  { urlBase := cfg.apiBaseUrl ++ ("/v3/app/roles/users/") ++ user_id
    query := []
    method := "DELETE"
    headers := stdHeaders cfg
    body := none }

/-- The leaveAllRoles handler. -/
def leaveAllRolesRun (cfg : Config) (env : HttpEnv) (user_id ai_description : String) :
    Envelope × List HttpRequest :=
  runTool cfg env (leaveAllRolesRequest cfg user_id ai_description)

/-- Request built by the removeMemberFromRole handler. -/
def removeMemberFromRoleRequest (cfg : Config) (role_id operatorId : String)
    (userIds departmentIds departmentTreeIds jobIds orgRoleIds : JVal)
    (ai_description : String) : HttpRequest :=
  { urlBase := cfg.apiBaseUrl ++ ("/v3/app/roles/") ++ role_id ++ ("/members")
    query := []
    method := "DELETE"
    headers := stdHeaders cfg
    body := some (stringify (JVal.obj
      [(("operatorId"), JVal.str operatorId), (("userIds"), userIds),
       (("departmentIds"), departmentIds),
       (("departmentTreeIds"), departmentTreeIds),
       (("jobIds"), jobIds), (("orgRoleIds"), orgRoleIds)])) }

/-- The removeMemberFromRole handler. -/
def removeMemberFromRoleRun (cfg : Config) (env : HttpEnv)
    (role_id operatorId : String)
    (userIds departmentIds departmentTreeIds jobIds orgRoleIds : JVal)
    (ai_description : String) : Envelope × List HttpRequest :=
  runTool cfg env (removeMemberFromRoleRequest cfg role_id operatorId userIds
    departmentIds departmentTreeIds jobIds orgRoleIds ai_description)

/-- Request built by the triggerWorkflow handler: the body wraps `inputs`
under the literal four-character-braced key, exactly
`JSON.stringify(.. [\x27\x7binputs\x7d\x27]: inputs ..)` in the source. -/
def triggerWorkflowRequest (cfg : Config) (process_id : String) (inputs : JVal)
    (ai_description : String) : HttpRequest :=
  { urlBase := cfg.apiBaseUrl ++ ("/v3/app/workflow/hooks/") ++ process_id
    query := []
    method := "POST"
    headers := stdHeaders cfg
    body := some (stringify (JVal.obj [(("\x7binputs\x7d"), inputs)])) }

/-- The triggerWorkflow handler. -/
def triggerWorkflowRun (cfg : Config) (env : HttpEnv) (process_id : String)
    (inputs : JVal) (ai_description : String) : Envelope × List HttpRequest :=
  runTool cfg env (triggerWorkflowRequest cfg process_id inputs ai_description)

/-- Request built by the updateOptionset handler. -/
def updateOptionsetRequest (cfg : Config) (optionset_id name : String)
    (options : JVal) (enableColor enableScore : Bool) (ai_description : String) :
    HttpRequest :=
  { urlBase := cfg.apiBaseUrl ++ ("/v3/app/optionsets/") ++ optionset_id
    query := []
    method := "PUT"
    headers := stdHeaders cfg
    body := some (stringify (JVal.obj
      [(("name"), JVal.str name), (("options"), options),
       (("enableColor"), JVal.bool enableColor),
       (("enableScore"), JVal.bool enableScore)])) }

/-- The updateOptionset handler. -/
def updateOptionsetRun (cfg : Config) (env : HttpEnv) (optionset_id name : String)
    (options : JVal) (enableColor enableScore : Bool) (ai_description : String) :
    Envelope × List HttpRequest :=
  runTool cfg env (updateOptionsetRequest cfg optionset_id name options enableColor
    enableScore ai_description)

/-- Request built by the updateRecord handler. -/
def updateRecordRequest (cfg : Config) (worksheet_id row_id : String)
    (fields triggerWorkflow : JVal) (ai_description : String) : HttpRequest :=
  { urlBase := cfg.apiBaseUrl ++ ("/v3/app/worksheets/") ++ worksheet_id
      ++ ("/rows/") ++ row_id
    query := []
    method := "PATCH"
    headers := stdHeaders cfg
    body := some (stringify (JVal.obj
      [(("fields"), fields), (("triggerWorkflow"), triggerWorkflow)])) }

/-- The updateRecord handler. -/
def updateRecordRun (cfg : Config) (env : HttpEnv) (worksheet_id row_id : String)
    (fields triggerWorkflow : JVal) (ai_description : String) :
    Envelope × List HttpRequest :=
  runTool cfg env
    (updateRecordRequest cfg worksheet_id row_id fields triggerWorkflow ai_description)

/-- Request built by the updateWorksheet handler (the source sends POST). -/
def updateWorksheetRequest (cfg : Config) (worksheet_id : String)
    (name alias_ sectionId addFields editFields removeFields : JVal)
    (ai_description : String) : HttpRequest :=
  { urlBase := cfg.apiBaseUrl ++ ("/v3/app/worksheets/") ++ worksheet_id
    query := []
    method := "POST"
    headers := stdHeaders cfg
    body := some (stringify (JVal.obj
      [(("name"), name), (("alias"), alias_), (("sectionId"), sectionId),
       (("addFields"), addFields), (("editFields"), editFields),
       (("removeFields"), removeFields)])) }

/-- The updateWorksheet handler. -/
def updateWorksheetRun (cfg : Config) (env : HttpEnv) (worksheet_id : String)
    (name alias_ sectionId addFields editFields removeFields : JVal)
    (ai_description : String) : Envelope × List HttpRequest :=
  runTool cfg env (updateWorksheetRequest cfg worksheet_id name alias_ sectionId
    addFields editFields removeFields ai_description)

/-- Modelled from zod v3, the schema library the hosting MCP SDK validates
tool arguments with before invoking a handler (an external collaborator of
this repository): ZodOptional parsing short-circuits an undefined input to
undefined without consulting the inner schema. -/
def zodOptionalParse (inner : JVal → JVal) : JVal → JVal
  | .undefined => .undefined
  | v => inner v

/-- Modelled from zod v3: ZodDefault parsing substitutes the default value
for an undefined input and then runs the inner schema. -/
def zodDefaultParse (dft : JVal) (inner : JVal → JVal) : JVal → JVal
  | .undefined => inner dft
  | v => inner v

/-- Modelled from zod v3: ZodBoolean parsing is the identity on the
boolean inputs that reach a handler (non-booleans are rejected by the SDK
before the handler runs, outside this model). -/
def zodBooleanParse : JVal → JVal := fun v => v

/-- The declared schema of the createRecord triggerWorkflow argument in
the source, `z.boolean().default(true).describe(..).optional()`: the
optional wrapper sits outside the default wrapper, so parsing applies
zodOptionalParse first. -/
def createRecordTriggerWorkflowParse : JVal → JVal :=
  zodOptionalParse (zodDefaultParse (JVal.bool true) zodBooleanParse)

/-- The describe-string of the getAppInfo ai_description schema parameter:
a template literal interpolating both credential values from the
configuration. -/
def getAppInfoAiDescribe (cfg : Config) : String :=
  ("e.g. Get application information. Response in user\x27s language. KEY/SIGN:")
    ++ cfg.hapAppkey ++ (" / ") ++ cfg.hapSign

/-- The describe-string of the ai_description parameter of every
registered tool, keyed by tool name in registration order. Only the
getAppInfo entry mentions the configuration; every other entry is the
string literal from the source (these are the only places in the source
where a schema description is built from the configuration). -/
def aiDescribeTable (cfg : Config) : List (String × String) :=
  [(("postCreateOptionset"), ("创建选项集")),
   (("createRecord"), ("e.g. Worksheet: <Worksheet Name>. Response in user\x27s language.")),
   (("createRole"), ("e.g. Role: <Role Name>. Response in user\x27s language.")),
   (("createWorksheet"), ("e.g. Worksheet: <Worksheet Name>. Response in user\x27s language.")),
   (("deleteOptionset"), ("e.g. Optionset: <Optionset Name>. Response in user\x27s language.")),
   (("deleteRecord"), ("e.g. Worksheet: <Worksheet Name>, Record: <Record Title>. Response in user\x27s language.")),
   (("deleteRole"), ("e.g. Role: <Role Name>. Response in user\x27s language.")),
   (("deleteWorksheet"), ("e.g. Worksheet: <Worksheet Name>. Response in user\x27s language.")),
   (("findDepartment"), ("e.g. Department: <Department Name>. Response in user\x27s language.")),
   (("findMember"), ("e.g. Name: <Person\x27s Name>. Response in user\x27s language.")),
   (("getAppInfo"), getAppInfoAiDescribe cfg),
   (("getOptionsetList"), ("e.g. Get a list of optionsets in the application. Response in user\x27s language.")),
   (("getRecordDetails"), ("e.g. Worksheet: <Worksheet Name>. Response in user\x27s language.")),
   (("getRecordDiscussions"), ("e.g. Worksheet: <Worksheet Name>, Record: <Record Title>. Response in user\x27s language.")),
   (("getRecordList"), ("Description of the query parameters, including worksheet, view (if any), filter conditions, sorting, etc. Output detailed field names and condition operators/values. Response in user\x27s language.")),
   (("getRecordLogs"), ("e.g. Worksheet: <Worksheet Name>, Record: <Record Title>. Response in user\x27s language.")),
   (("getRecordPivotData"), ("Description of the query parameters, including worksheet, view (if any), filter conditions, dimensions, values, sorting, etc. Output detailed field names and condition operators/values. Response in user\x27s language.")),
   (("getRecordRelations"), ("e.g. Worksheet: <Worksheet Name>, Record: <Record Title>, Field: <Field Name>. Response in user\x27s language.")),
   (("getRecordShareLink"), ("e.g. Worksheet: <Worksheet Name>, Record: <Record Title>. Response in user\x27s language.")),
   (("getRegions"), ("e.g. Region: <Region Name>. Response in user\x27s language.")),
   (("getRoleDetails"), ("e.g. Role: <Role Name>. Response in user\x27s language.")),
   (("getRoleList"), ("e.g. Get a list of roles in the application. Response in user\x27s language.")),
   (("getWorkflowDetails"), ("e.g. Workflow: <Workflow Name>. Response in user\x27s language.")),
   (("getWorkflowList"), ("e.g. Get a list of workflows in the application. Response in user\x27s language.")),
   (("getWorksheetsList"), ("e.g. Get the list of worksheets under a specific application. Response in user\x27s language.")),
   (("getWorksheetStructure"), ("e.g. Worksheet: <Worksheet Name>. Response in user\x27s language.")),
   (("leaveAllRoles"), ("e.g. Member: <Member Name>. Response in user\x27s language.")),
   (("removeMemberFromRole"), ("e.g. Role: <Role Name>, Remove Member: <(Type) Name>. Response in user\x27s language.")),
   (("triggerWorkflow"), ("e.g. Workflow: <Workflow Name>. Response in user\x27s language.")),
   (("updateOptionset"), ("e.g. Optionset: <Optionset Name>. Response in user\x27s language.")),
   (("updateRecord"), ("e.g. Worksheet: <Worksheet Name>, Record: <Record Title>. Response in user\x27s language.")),
   (("updateWorksheet"), ("e.g. Worksheet: <Worksheet Name>, add fields (if any), modify fields (if any), delete fields (if any). Response in user\x27s language."))]

/-- A configuration with both credentials present. -/
def cfgOK : Config :=
  ⟨false, ("key1"), ("sign1"), ("https://api.example.com")⟩

/-- A configuration whose HAP-Appkey is the empty (falsy) string. -/
def cfgNoKey : Config :=
  ⟨false, (""), ("sign1"), ("https://api.example.com")⟩

/-- A world in which the fetch rejects with message boom. -/
def envThrowsBoom : HttpEnv :=
  fun _ => FetchResult.fetchThrows ("boom")

/-- A mocked endpoint answering HTTP 404 with body error_msg not found. -/
def env404NotFound : HttpEnv :=
  fun _ => FetchResult.ok 404 (JVal.obj [(("error_msg"), JVal.str ("not found"))])

/-- A mocked endpoint answering HTTP 404 whose body carries an error_msg
member that is present but empty (falsy). -/
def env404EmptyMsg : HttpEnv :=
  fun _ => FetchResult.ok 404 (JVal.obj [(("error_msg"), JVal.str (""))])

/-- The fields argument of the round-trip scenario:
[ (id f1, value x) ]. -/
def fieldsRT : JVal :=
  JVal.arr [JVal.obj [(("id"), JVal.str ("f1")), (("value"), JVal.str ("x"))]]

/-- The echo of the round-trip scenario: the createRecord request built
from fieldsRT with an undefined triggerWorkflow serializes to exactly
the JSON text of (fields fieldsRT), so an endpoint echoing the request
body back with HTTP 200 answers that object. -/
def echoEnvRT : HttpEnv :=
  fun _ => FetchResult.ok 200 (JVal.obj [(("fields"), fieldsRT)])

/-- A URL constructor that succeeds on every string (any well-formed
configured base URL). -/
def urlCtorOK : UrlCtor :=
  fun _ => none

/-- A URL constructor that throws on every string the handlers build: the
behavior of `new URL` over an unparseable configured base URL, with the
Node TypeError message. -/
def urlCtorInvalid : UrlCtor :=
  fun _ => some ("Invalid URL")

/-- A configuration with both credentials present whose apiBaseUrl is not
a parseable URL (the config schema requires only a string). -/
def cfgBadBase : Config :=
  ⟨false, ("key1"), ("sign1"), ("not a url")⟩

/-- A one-member object serializes as the braced quoted key, a colon and
the serialized value, when the value is not undefined. -/
theorem stringify_singleton_obj (k : String) (v : JVal) (h : v.isUndefined = false) :
    stringify (JVal.obj [(k, v)]) =
      ("\x7b") ++ jsonQuote k ++ (":") ++ stringify v ++ ("\x7d") := by
  cases v <;>
    simp [JVal.isUndefined] at h ⊢ <;>
    simp [stringify, stringifyMembers, String.append_assoc]

/-- C1: for every tool invocation — every handler in the source runs one
of the two shared bodies, runTool or runToolWithURL, on the request it
built — an empty hapAppkey or an empty hapSign returns the envelope whose
single content text is exactly the fixed missing-credentials message, and
the trace of issued fetches is empty: fetch is never invoked. -/
theorem claim1_missing_credentials :
    (∀ (cfg : Config) (env : HttpEnv) (req : HttpRequest),
        cfg.hapAppkey = "" ∨ cfg.hapSign = "" →
        runTool cfg env req =
          (mkEnvelope ("Error: HAP-Appkey or HAP-Sign missing in server config."), [])) ∧
    (∀ (cfg : Config) (uc : UrlCtor) (env : HttpEnv) (req : HttpRequest),
        cfg.hapAppkey = "" ∨ cfg.hapSign = "" →
        runToolWithURL cfg uc env req =
          (mkEnvelope ("Error: HAP-Appkey or HAP-Sign missing in server config."), [])) ∧
    (∀ (cfg : Config) (env : HttpEnv) (name : String) (options : JVal)
        (ec es : Bool) (ad : String),
        cfg.hapAppkey = "" ∨ cfg.hapSign = "" →
        postCreateOptionsetRun cfg env name options ec es ad =
          (mkEnvelope ("Error: HAP-Appkey or HAP-Sign missing in server config."), [])) ∧
    (∀ (cfg : Config) (env : HttpEnv) (w : String) (fields tw : JVal) (ad : String),
        cfg.hapAppkey = "" ∨ cfg.hapSign = "" →
        createRecordRun cfg env w fields tw ad =
          (mkEnvelope ("Error: HAP-Appkey or HAP-Sign missing in server config."), [])) := by
  have h0 : ∀ (cfg : Config) (env : HttpEnv) (req : HttpRequest),
      cfg.hapAppkey = "" ∨ cfg.hapSign = "" →
      runTool cfg env req =
        (mkEnvelope ("Error: HAP-Appkey or HAP-Sign missing in server config."), []) := by
    intro cfg env req h
    simp [runTool, h, credMissingText]
  have h1 : ∀ (cfg : Config) (uc : UrlCtor) (env : HttpEnv) (req : HttpRequest),
      cfg.hapAppkey = "" ∨ cfg.hapSign = "" →
      runToolWithURL cfg uc env req =
        (mkEnvelope ("Error: HAP-Appkey or HAP-Sign missing in server config."), []) := by
    intro cfg uc env req h
    simp [runToolWithURL, h, credMissingText]
  exact ⟨h0, h1, fun cfg env name options ec es ad h => h0 cfg env _ h,
    fun cfg env w fields tw ad h => h0 cfg env _ h⟩

/-- Witness for C1 at a concrete configuration with an empty appkey. -/
theorem claim1_missing_credentials_witness :
    runTool cfgNoKey envThrowsBoom (deleteWorksheetRequest cfgNoKey ("w1") ("d")) =
      (mkEnvelope ("Error: HAP-Appkey or HAP-Sign missing in server config."), []) :=
  claim1_missing_credentials.1 cfgNoKey envThrowsBoom _ (Or.inl rfl)

/-- C3 counterexample: a 404 body whose error_msg member is present but
empty is serialized with error Unknown error — the code tests
truthiness, not presence — where the claim dictates the present value,
the empty string. -/
theorem claim3_counterexample :
    (deleteWorksheetRun cfgOK env404EmptyMsg ("w1") ("d")).1 =
      mkEnvelope ("\x7b\"error\":\"Unknown error\",\"statusCode\":404\x7d") ∧
    mkEnvelope ("\x7b\"error\":\"Unknown error\",\"statusCode\":404\x7d") ≠
      mkEnvelope ("\x7b\"error\":\"\",\"statusCode\":404\x7d") :=
  ⟨by decide, by decide⟩

/-- C3 (amended): on a non-2xx status whose parsed body is neither null
nor undefined, the envelope wraps the JSON encoding of an object with
error equal to the error_msg member when that member is truthy (present
and non-empty, non-zero, not false, not null), else Unknown error, and
statusCode equal to the HTTP status; in particular deleteWorksheet
against a mock returning 404 with body error_msg not found yields the
payload error not found, statusCode 404. -/
theorem claim3_remote_error_payload :
    (∀ (st : Nat) (r : JVal),
        responseOk st = false → truthy (getField r ("error_msg")) = true →
        handleResponse st r =
          mkEnvelope (stringify (JVal.obj
            [(("error"), getField r ("error_msg")),
             (("statusCode"), JVal.int (Int.ofNat st))]))) ∧
    (∀ (st : Nat) (r : JVal),
        responseOk st = false → truthy (getField r ("error_msg")) = false →
        r ≠ JVal.null → r ≠ JVal.undefined →
        handleResponse st r =
          mkEnvelope (stringify (JVal.obj
            [(("error"), JVal.str ("Unknown error")),
             (("statusCode"), JVal.int (Int.ofNat st))]))) ∧
    (deleteWorksheetRun cfgOK env404NotFound ("w1") ("d")) =
      (mkEnvelope ("\x7b\"error\":\"not found\",\"statusCode\":404\x7d"),
       [deleteWorksheetRequest cfgOK ("w1") ("d")]) := by
  refine ⟨?_, ?_, by decide⟩
  · intro st r hst ht
    cases r
    case obj a => simp [handleResponse, hst, errorBody, ht]
    all_goals simp [getField, truthy] at ht
  · intro st r hst ht hnull hu
    cases r
    case null => exact absurd rfl hnull
    case undefined => exact absurd rfl hu
    all_goals simp [handleResponse, hst, errorBody, ht]

/-- Witness for C3 (amended) at the concrete 404 body. -/
theorem claim3_remote_error_payload_witness :
    handleResponse 404 (JVal.obj [(("error_msg"), JVal.str ("not found"))]) =
      mkEnvelope (stringify (JVal.obj
        [(("error"),
          getField (JVal.obj [(("error_msg"), JVal.str ("not found"))]) ("error_msg")),
         (("statusCode"), JVal.int (Int.ofNat 404))])) :=
  claim3_remote_error_payload.1 404 _ (by decide) (by decide)

/-- C4 (code bug): the schema of triggerWorkflow places the optional
wrapper outside the default wrapper, and zod parses a missing argument to
undefined without ever reaching the default — so the round-trip body of
the claimed invocation is exactly the fields member with no
triggerWorkflow member, the echoed success envelope carries that text
back, and that text differs from the serialization of the claimed payload
with triggerWorkflow true. -/
theorem claim4_trigger_workflow_default_not_applied :
    createRecordTriggerWorkflowParse JVal.undefined = JVal.undefined ∧
    (createRecordRequest cfgOK ("w1") fieldsRT
        (createRecordTriggerWorkflowParse JVal.undefined) ("d")).body =
      some ("\x7b\"fields\":[\x7b\"id\":\"f1\",\"value\":\"x\"\x7d]\x7d") ∧
    (createRecordRun cfgOK echoEnvRT ("w1") fieldsRT
        (createRecordTriggerWorkflowParse JVal.undefined) ("d")).1 =
      mkEnvelope ("\x7b\"fields\":[\x7b\"id\":\"f1\",\"value\":\"x\"\x7d]\x7d") ∧
    ("\x7b\"fields\":[\x7b\"id\":\"f1\",\"value\":\"x\"\x7d]\x7d") ≠
      stringify (JVal.obj
        [(("fields"), fieldsRT), (("triggerWorkflow"), JVal.bool true)]) :=
  ⟨rfl, by decide, by decide, by decide⟩

/-- C5: in the query-building tools, an undefined argument contributes no
search parameter at all, a boolean false contributes its key paired with
the literal string false, and integers print in decimal. -/
theorem claim5_query_construction :
    (∀ (cfg : Config) (w r ad : String),
        (getRecordDetailsRequest cfg w r none ad).query = []) ∧
    (∀ (cfg : Config) (w r ad : String),
        (getRecordDetailsRequest cfg w r (some false) ad).query =
          [(("includeSystemFields"), ("false"))]) ∧
    (∀ (cfg : Config) (w r ad : String) (ps : Option Int) (s : Option String)
        (owa : Option Bool),
        ("pageIndex") ∉
          (getRecordDiscussionsRequest cfg w r none ps s owa ad).query.map Prod.fst) ∧
    (∀ (cfg : Config) (w r ad : String) (pgI ps : Option Int) (s : Option String),
        (("onlyWithAttachments"), ("false")) ∈
          (getRecordDiscussionsRequest cfg w r pgI ps s (some false) ad).query) ∧
    (∀ (cfg : Config) (w r ad : String),
        (getRecordDiscussionsRequest cfg w r (some 2) none none (some false) ad).query =
          [(("pageIndex"), ("2")), (("onlyWithAttachments"), ("false"))]) ∧
    (∀ (cfg : Config) (w r ad : String) (ops : Option (List String))
        (ps pgI : Option Int) (sd ed : Option String),
        ("field") ∉
          (getRecordLogsRequest cfg w r ops none ps pgI sd ed ad).query.map Prod.fst) ∧
    (∀ (cfg : Config) (w r ad : String),
        (getRecordLogsRequest cfg w r none none none none none none ad).query = []) ∧
    (∀ (cfg : Config) (w r f ad : String) (ps pgI : Option Int),
        (("isReturnSystemFields"), ("false")) ∈
          (getRecordRelationsRequest cfg w r f ps pgI (some false) ad).query) ∧
    (∀ (cfg : Config) (w r f ad : String) (pgI : Option Int) (irs : Option Bool),
        ("pageSize") ∉
          (getRecordRelationsRequest cfg w r f none pgI irs ad).query.map Prod.fst) ∧
    (∀ (cfg : Config) (ad : String) (s : Option String),
        ("id") ∉ (getRegionsRequest cfg none s ad).query.map Prod.fst) ∧
    (∀ (cfg : Config) (ad i : String),
        (getRegionsRequest cfg (some i) none ad).query = [(("id"), i)]) ∧
    (∀ (cfg : Config) (w ad : String),
        (getWorksheetStructureRequest cfg w none ad).query = []) ∧
    (∀ (cfg : Config) (w ad : String),
        (getWorksheetStructureRequest cfg w (some ("md")) ad).query =
          [(("responseFormat"), ("md"))]) := by
  refine ⟨?_, ?_, ?_, ?_, ?_, ?_, ?_, ?_, ?_, ?_, ?_, ?_, ?_⟩
  · intro cfg w r ad; rfl
  · intro cfg w r ad; rfl
  · intro cfg w r ad ps s owa
    cases ps <;> cases s <;> cases owa <;>
      simp [getRecordDiscussionsRequest, optQInt, optQStr, optQBool]
  · intro cfg w r ad pgI ps s
    cases pgI <;> cases ps <;> cases s <;>
      simp [getRecordDiscussionsRequest, optQInt, optQStr, optQBool]
  · intro cfg w r ad; rfl
  · intro cfg w r ad ops ps pgI sd ed
    cases ops <;> cases ps <;> cases pgI <;> cases sd <;> cases ed <;>
      simp [getRecordLogsRequest, listQ, optQInt, optQStr, List.map_map, Function.comp]
  · intro cfg w r ad; rfl
  · intro cfg w r f ad ps pgI
    cases ps <;> cases pgI <;>
      simp [getRecordRelationsRequest, optQInt, optQBool]
  · intro cfg w r f ad pgI irs
    cases pgI <;> cases irs <;>
      simp [getRecordRelationsRequest, optQInt, optQBool]
  · intro cfg ad s
    cases s <;> simp [getRegionsRequest, optQStr]
  · intro cfg ad i; rfl
  · intro cfg w ad; rfl
  · intro cfg w ad; rfl

/-- Witness for C5 at concrete arguments: the pageIndex key is absent when
the argument is undefined while other arguments are supplied. -/
theorem claim5_query_construction_witness :
    ("pageIndex") ∉
      (getRecordDiscussionsRequest cfgOK ("w") ("r") none (some 7) (some ("q"))
        (some false) ("d")).query.map Prod.fst :=
  claim5_query_construction.2.2.1 cfgOK ("w") ("r") ("d") (some 7) (some ("q"))
    (some false)

/-- C6: the triggerWorkflow tool wraps its sole data argument in a
single-member object under the literal braced key, and when the argument
is defined the serialized body is the braces, the quoted braced key — the
quotation leaving the key intact byte for byte — a colon, and the
serialized argument. -/
theorem claim6_trigger_workflow_body_key :
    ∀ (cfg : Config) (p ad : String) (inputs : JVal),
      (triggerWorkflowRequest cfg p inputs ad).body =
        some (stringify (JVal.obj [(("\x7binputs\x7d"), inputs)])) ∧
      (inputs.isUndefined = false →
        (triggerWorkflowRequest cfg p inputs ad).body =
          some (("\x7b") ++ jsonQuote ("\x7binputs\x7d") ++ (":")
            ++ stringify inputs ++ ("\x7d"))) ∧
      jsonQuote ("\x7binputs\x7d") = ("\"\x7binputs\x7d\"") := by
  intro cfg p ad inputs
  refine ⟨rfl, ?_, by decide⟩
  intro h
  show some (stringify (JVal.obj [(("\x7binputs\x7d"), inputs)])) = _
  rw [stringify_singleton_obj _ _ h]

/-- Witness for C6 at a concrete defined argument. -/
theorem claim6_trigger_workflow_body_key_witness :
    (triggerWorkflowRequest cfgOK ("p") (JVal.str ("x")) ("d")).body =
      some (("\x7b") ++ jsonQuote ("\x7binputs\x7d") ++ (":")
        ++ stringify (JVal.str ("x")) ++ ("\x7d")) :=
  (claim6_trigger_workflow_body_key cfgOK ("p") ("d") (JVal.str ("x"))).2.1 rfl

/-- C7: for each of the 32 registered tools, two invocations differing
only in ai_description run identically: same outbound request (the trace
holds the request with its URL parts, method, headers and body) and same
envelope against the same environment. -/
theorem claim7_ai_description_ignored :
    (∀ (cfg : Config) (env : HttpEnv) (n : String) (o : JVal) (ec es : Bool)
        (a1 a2 : String),
        postCreateOptionsetRun cfg env n o ec es a1 =
          postCreateOptionsetRun cfg env n o ec es a2) ∧
    (∀ (cfg : Config) (env : HttpEnv) (w : String) (f tw : JVal) (a1 a2 : String),
        createRecordRun cfg env w f tw a1 = createRecordRun cfg env w f tw a2) ∧
    (∀ (cfg : Config) (env : HttpEnv) (n d h t p : String) (g wp pp : JVal)
        (a1 a2 : String),
        createRoleRun cfg env n d h t p g wp pp a1 =
          createRoleRun cfg env n d h t p g wp pp a2) ∧
    (∀ (cfg : Config) (env : HttpEnv) (n : String) (al se f : JVal) (a1 a2 : String),
        createWorksheetRun cfg env n al se f a1 = createWorksheetRun cfg env n al se f a2) ∧
    (∀ (cfg : Config) (env : HttpEnv) (oid a1 a2 : String),
        deleteOptionsetRun cfg env oid a1 = deleteOptionsetRun cfg env oid a2) ∧
    (∀ (cfg : Config) (env : HttpEnv) (w r : String) (tw pm : JVal) (a1 a2 : String),
        deleteRecordRun cfg env w r tw pm a1 = deleteRecordRun cfg env w r tw pm a2) ∧
    (∀ (cfg : Config) (env : HttpEnv) (rid a1 a2 : String),
        deleteRoleRun cfg env rid a1 = deleteRoleRun cfg env rid a2) ∧
    (∀ (cfg : Config) (env : HttpEnv) (w a1 a2 : String),
        deleteWorksheetRun cfg env w a1 = deleteWorksheetRun cfg env w a2) ∧
    (∀ (cfg : Config) (uc : UrlCtor) (env : HttpEnv) (n a1 a2 : String),
        findDepartmentRun cfg uc env n a1 = findDepartmentRun cfg uc env n a2) ∧
    (∀ (cfg : Config) (uc : UrlCtor) (env : HttpEnv) (n a1 a2 : String),
        findMemberRun cfg uc env n a1 = findMemberRun cfg uc env n a2) ∧
    (∀ (cfg : Config) (env : HttpEnv) (a1 a2 : String),
        getAppInfoRun cfg env a1 = getAppInfoRun cfg env a2) ∧
    (∀ (cfg : Config) (env : HttpEnv) (a1 a2 : String),
        getOptionsetListRun cfg env a1 = getOptionsetListRun cfg env a2) ∧
    (∀ (cfg : Config) (uc : UrlCtor) (env : HttpEnv) (w r : String)
        (isf : Option Bool) (a1 a2 : String),
        getRecordDetailsRun cfg uc env w r isf a1 =
          getRecordDetailsRun cfg uc env w r isf a2) ∧
    (∀ (cfg : Config) (uc : UrlCtor) (env : HttpEnv) (w r : String)
        (pgI ps : Option Int) (s : Option String) (owa : Option Bool)
        (a1 a2 : String),
        getRecordDiscussionsRun cfg uc env w r pgI ps s owa a1 =
          getRecordDiscussionsRun cfg uc env w r pgI ps s owa a2) ∧
    (∀ (cfg : Config) (env : HttpEnv) (w : String) (ps pgI : Int)
        (v f fl so se tv uf itc isf rf : JVal) (a1 a2 : String),
        getRecordListRun cfg env w ps pgI v f fl so se tv uf itc isf rf a1 =
          getRecordListRun cfg env w ps pgI v f fl so se tv uf itc isf rf a2) ∧
    (∀ (cfg : Config) (uc : UrlCtor) (env : HttpEnv) (w r : String)
        (ops : Option (List String)) (f : Option String) (ps pgI : Option Int)
        (sd ed : Option String) (a1 a2 : String),
        getRecordLogsRun cfg uc env w r ops f ps pgI sd ed a1 =
          getRecordLogsRun cfg uc env w r ops f ps pgI sd ed a2) ∧
    (∀ (cfg : Config) (env : HttpEnv) (w : String)
        (ps pgI v c ro va fl so inc : JVal) (a1 a2 : String),
        getRecordPivotDataRun cfg env w ps pgI v c ro va fl so inc a1 =
          getRecordPivotDataRun cfg env w ps pgI v c ro va fl so inc a2) ∧
    (∀ (cfg : Config) (uc : UrlCtor) (env : HttpEnv) (w r f : String)
        (ps pgI : Option Int) (irs : Option Bool) (a1 a2 : String),
        getRecordRelationsRun cfg uc env w r f ps pgI irs a1 =
          getRecordRelationsRun cfg uc env w r f ps pgI irs a2) ∧
    (∀ (cfg : Config) (env : HttpEnv) (w r : String) (vf ei pw : JVal)
        (a1 a2 : String),
        getRecordShareLinkRun cfg env w r vf ei pw a1 =
          getRecordShareLinkRun cfg env w r vf ei pw a2) ∧
    (∀ (cfg : Config) (uc : UrlCtor) (env : HttpEnv) (i s : Option String)
        (a1 a2 : String),
        getRegionsRun cfg uc env i s a1 = getRegionsRun cfg uc env i s a2) ∧
    (∀ (cfg : Config) (env : HttpEnv) (rid a1 a2 : String),
        getRoleDetailsRun cfg env rid a1 = getRoleDetailsRun cfg env rid a2) ∧
    (∀ (cfg : Config) (env : HttpEnv) (a1 a2 : String),
        getRoleListRun cfg env a1 = getRoleListRun cfg env a2) ∧
    (∀ (cfg : Config) (env : HttpEnv) (p a1 a2 : String),
        getWorkflowDetailsRun cfg env p a1 = getWorkflowDetailsRun cfg env p a2) ∧
    (∀ (cfg : Config) (env : HttpEnv) (a1 a2 : String),
        getWorkflowListRun cfg env a1 = getWorkflowListRun cfg env a2) ∧
    (∀ (cfg : Config) (env : HttpEnv) (rf ws : JVal) (a1 a2 : String),
        getWorksheetsListRun cfg env rf ws a1 = getWorksheetsListRun cfg env rf ws a2) ∧
    (∀ (cfg : Config) (uc : UrlCtor) (env : HttpEnv) (w : String)
        (rf : Option String) (a1 a2 : String),
        getWorksheetStructureRun cfg uc env w rf a1 =
          getWorksheetStructureRun cfg uc env w rf a2) ∧
    (∀ (cfg : Config) (env : HttpEnv) (u a1 a2 : String),
        leaveAllRolesRun cfg env u a1 = leaveAllRolesRun cfg env u a2) ∧
    (∀ (cfg : Config) (env : HttpEnv) (rid op : String) (ui di dti ji ori : JVal)
        (a1 a2 : String),
        removeMemberFromRoleRun cfg env rid op ui di dti ji ori a1 =
          removeMemberFromRoleRun cfg env rid op ui di dti ji ori a2) ∧
    (∀ (cfg : Config) (env : HttpEnv) (p : String) (inp : JVal) (a1 a2 : String),
        triggerWorkflowRun cfg env p inp a1 = triggerWorkflowRun cfg env p inp a2) ∧
    (∀ (cfg : Config) (env : HttpEnv) (oid n : String) (o : JVal) (ec es : Bool)
        (a1 a2 : String),
        updateOptionsetRun cfg env oid n o ec es a1 =
          updateOptionsetRun cfg env oid n o ec es a2) ∧
    (∀ (cfg : Config) (env : HttpEnv) (w r : String) (f tw : JVal) (a1 a2 : String),
        updateRecordRun cfg env w r f tw a1 = updateRecordRun cfg env w r f tw a2) ∧
    (∀ (cfg : Config) (env : HttpEnv) (w : String) (n al se af ef rf : JVal)
        (a1 a2 : String),
        updateWorksheetRun cfg env w n al se af ef rf a1 =
          updateWorksheetRun cfg env w n al se af ef rf a2) := by
  repeat' apply And.intro
  all_goals (intros; rfl)

/-- C8 counterexample: with both credentials present but an unparseable
configured base URL, getRegions throws in the URL constructor before any
fetch — the credential check passes, yet the trace of issued fetches is
empty and the caught throw surfaces as the transport-error envelope. So
not every credential-passing invocation issues exactly one call. -/
theorem claim8_counterexample :
    cfgBadBase.hapAppkey ≠ ("") ∧ cfgBadBase.hapSign ≠ ("") ∧
    (getRegionsRun cfgBadBase urlCtorInvalid envThrowsBoom none none ("d")).2 = [] ∧
    (getRegionsRun cfgBadBase urlCtorInvalid envThrowsBoom none none ("d")).1 =
      mkEnvelope (("Error calling external API: ") ++ ("Invalid URL")) :=
  ⟨by decide, by decide, by decide, by decide⟩

/-- C8 (amended): every tool invocation issues at most one fetch — never a
retry or re-attempt — and exactly one whenever both credentials are
present, except in the eight URL-constructing tools when the constructor
throws on the configured base: there the trace is empty and the throw
surfaces as the transport-error envelope, so the single fetch remains the
only network operation on every execution path. -/
theorem claim8_fetch_count :
    (∀ (cfg : Config) (env : HttpEnv) (req : HttpRequest),
        (runTool cfg env req).2.length ≤ 1 ∧
        (cfg.hapAppkey ≠ "" → cfg.hapSign ≠ "" → (runTool cfg env req).2 = [req])) ∧
    (∀ (cfg : Config) (uc : UrlCtor) (env : HttpEnv) (req : HttpRequest),
        (runToolWithURL cfg uc env req).2.length ≤ 1 ∧
        (cfg.hapAppkey ≠ "" → cfg.hapSign ≠ "" → uc req.urlBase = none →
          (runToolWithURL cfg uc env req).2 = [req]) ∧
        (∀ m : String, cfg.hapAppkey ≠ "" → cfg.hapSign ≠ "" →
          uc req.urlBase = some m →
          runToolWithURL cfg uc env req = (mkEnvelope (apiErrorText m), []))) := by
  constructor
  · intro cfg env req
    constructor
    · unfold runTool
      split <;> simp
    · intro hk hs
      simp [runTool, hk, hs]
  · intro cfg uc env req
    refine ⟨?_, ?_, ?_⟩
    · unfold runToolWithURL
      split
      · simp
      · split <;> simp
    · intro hk hs hu
      simp [runToolWithURL, hk, hs, hu]
    · intro m hk hs hu
      simp [runToolWithURL, hk, hs, hu]

/-- Witness for C8 (amended) at concrete invocations with valid
credentials: one issued fetch under a parsing base URL, and the empty
trace with the transport envelope under a throwing constructor. -/
theorem claim8_fetch_count_witness :
    (runToolWithURL cfgOK urlCtorOK envThrowsBoom
        (getRegionsRequest cfgOK none none ("d"))).2 =
      [getRegionsRequest cfgOK none none ("d")] ∧
    runToolWithURL cfgBadBase urlCtorInvalid envThrowsBoom
        (getRegionsRequest cfgBadBase none none ("d")) =
      (mkEnvelope (apiErrorText ("Invalid URL")), []) :=
  ⟨(claim8_fetch_count.2 cfgOK urlCtorOK envThrowsBoom _).2.1
      (by decide) (by decide) rfl,
   (claim8_fetch_count.2 cfgBadBase urlCtorInvalid envThrowsBoom _).2.2
      ("Invalid URL") (by decide) (by decide) rfl⟩

/-- C9: JSON.stringify drops object members whose value is undefined, so
an optional body argument left undefined is entirely absent from the
serialized request body: deleteRecord without permanent sends only
triggerWorkflow, createRecord with an undefined triggerWorkflow sends
only fields, and getRecordShareLink with all three optionals undefined
sends the empty object. -/
theorem claim9_undefined_body_keys_dropped :
    (∀ (k : String) (rest : List (String × JVal)),
        stringifyMembers ((k, JVal.undefined) :: rest) = stringifyMembers rest) ∧
    (∀ (cfg : Config) (w r ad : String),
        (deleteRecordRequest cfg w r (JVal.bool true) JVal.undefined ad).body =
          some ("\x7b\"triggerWorkflow\":true\x7d")) ∧
    (∀ (cfg : Config) (w ad : String) (fields : JVal),
        (createRecordRequest cfg w fields JVal.undefined ad).body =
          some (stringify (JVal.obj [(("fields"), fields)]))) ∧
    (∀ (cfg : Config) (w r ad : String),
        (getRecordShareLinkRequest cfg w r JVal.undefined JVal.undefined JVal.undefined ad).body =
          some ("\x7b\x7d")) := by
  refine ⟨fun k rest => rfl, fun cfg w r ad => rfl, ?_, fun cfg w r ad => rfl⟩
  intro cfg w ad fields
  cases fields <;> simp [createRecordRequest, stringify, stringifyMembers]

/-- C10 counterexample: two configurations differing only in the two
credential strings whose interpolations collide — the appkey may itself
contain the separator — produce the very same getAppInfo description, so
differing credentials do not always yield differing schema descriptions. -/
theorem claim10_counterexample :
    getAppInfoAiDescribe ⟨false, ("x / y"), ("z"), ("u")⟩ =
      getAppInfoAiDescribe ⟨false, ("x"), ("y / z"), ("u")⟩ ∧
    (Config.mk false ("x / y") ("z") ("u")) ≠ (Config.mk false ("x") ("y / z") ("u")) :=
  ⟨by decide, by decide⟩

/-- C10 (amended): the getAppInfo ai_description describe-string embeds
both credentials verbatim — it is the fixed prefix, the appkey, the
separator and the sign — two instances differ in it whenever their
interpolated credential strings differ (collisions of the concatenation
are possible), and no other tool describe-string depends on the
configuration. -/
theorem claim10_appinfo_credentials_in_schema :
    (∀ cfg : Config,
        (aiDescribeTable cfg).lookup ("getAppInfo") =
          some (("e.g. Get application information. Response in user\x27s language. KEY/SIGN:")
            ++ cfg.hapAppkey ++ (" / ") ++ cfg.hapSign)) ∧
    (∀ (name : String) (cfg1 cfg2 : Config), name ≠ ("getAppInfo") →
        (aiDescribeTable cfg1).lookup name = (aiDescribeTable cfg2).lookup name) ∧
    (∀ (d1 d2 : Bool) (k1 s1 k2 s2 u1 u2 : String),
        k1 ++ (" / ") ++ s1 ≠ k2 ++ (" / ") ++ s2 →
        getAppInfoAiDescribe ⟨d1, k1, s1, u1⟩ ≠ getAppInfoAiDescribe ⟨d2, k2, s2, u2⟩) := by
  refine ⟨fun cfg => rfl, ?_, ?_⟩
  · intro name cfg1 cfg2 h
    have hb : (name == ("getAppInfo")) = false := beq_eq_false_iff_ne.mpr h
    simp [aiDescribeTable, List.lookup, hb]
  · intro d1 d2 k1 s1 k2 s2 u1 u2 hne heq
    refine absurd ?_ hne
    have hd := congrArg String.data heq
    simp only [getAppInfoAiDescribe, String.data_append, List.append_assoc] at hd
    have hd2 := List.append_cancel_left hd
    apply String.ext
    simp only [String.data_append, List.append_assoc]
    exact hd2

/-- Witness for C10 (amended): distinct interpolated credential strings
give distinct descriptions at a concrete pair of configurations. -/
theorem claim10_appinfo_credentials_in_schema_witness :
    getAppInfoAiDescribe ⟨false, ("a"), ("b"), ("u")⟩ ≠
      getAppInfoAiDescribe ⟨false, ("c"), ("d"), ("u")⟩ :=
  claim10_appinfo_credentials_in_schema.2.2 false false ("a") ("b") ("c") ("d")
    ("u") ("u") (by decide)

end Mingdao
